import Mathlib

/-!
Shallow embedding of `src/file_handler.py`, a small HTTP upload-and-analyze
server built on `http.server.SimpleHTTPRequestHandler`.

Modelling decisions:
- File contents are byte lists (`Bytes := List Nat`); the working directory is
  a partial map from relative path strings to contents (`FS`).
- JSON documents are a small inductive `Json`; `json.dumps` is left abstract
  (responses carry the structured document, not its serialization).
- The external analyzer subprocess (`处理数据.py`) is an oracle: its exit code,
  captured stdout/stderr, and its effect on the filesystem are parameters.
- `json.load` of the result file is an oracle `parseJson : Bytes → Option Json`
  (`none` models a parse exception).
- Fallible filesystem steps that the Python code wraps (or fails to wrap) in
  `try/except` are driven by explicit fault flags (`Faults`), so the model can
  exercise both success and exception paths of each step.
- `self.send_error` (from `http.server.BaseHTTPRequestHandler`) produces an
  HTML error page body, not JSON; it is modelled by the `Body.errorPage`
  constructor.
- Timestamps: `datetime.now().strftime('%Y%m%d-%H%M%S')` is a string parameter
  `now`; `datetime.fromtimestamp(mtime).strftime('%Y-%m-%d %H:%M:%S')` is
  implemented as `formatTimestamp` over an epoch value and a local timezone
  offset.
-/

set_option maxRecDepth 8000

namespace FileUploadServer

/-- File contents as raw bytes. -/
abbrev Bytes := List Nat

/-- The server's working directory: a partial map from relative paths to file
contents. -/
abbrev FS := String → Option Bytes

/-- `open(path,'wb'); f.write(data)`: create-or-truncate write. -/
def FS.write (fs : FS) (p : String) (b : Bytes) : FS :=
  fun q => if q = p then some b else fs q

theorem FS.write_self (fs : FS) (p : String) (b : Bytes) :
    fs.write p b p = some b := by
  simp [FS.write]

theorem FS.write_ne (fs : FS) (p q : String) (b : Bytes) (h : q ≠ p) :
    fs.write p b q = fs q := by
  simp [FS.write, h]

/-- JSON documents (numbers restricted to integers, which covers every value
this server produces). -/
inductive Json where
  | null : Json
  | bool (b : Bool) : Json
  | num (n : Int) : Json
  | str (s : String) : Json
  | arr (xs : List Json) : Json
  | obj (kvs : List (String × Json)) : Json

/-- First binding of a key in a JSON object's field list (Python `dict`
semantics for the documents this server builds, which have distinct keys). -/
def Json.lookupKey : List (String × Json) → String → Option Json
  | [], _ => none
  | (k, v) :: rest, key => if k = key then some v else Json.lookupKey rest key

/-- Response bodies: a JSON document (written via `json.dumps`), the standard
library's HTML error page (written by `send_error`), or no content. -/
inductive Body where
  | json (j : Json) : Body
  | errorPage (code : Nat) (msg : String) : Body
  | empty : Body

/-- An HTTP response as observed by the client: status code, the headers the
handler itself adds (the `Server`/`Date` headers added by `send_response` are
omitted), and the body. -/
structure Response where
  status : Nat
  headers : List (String × String)
  body : Body

/-- Headers carried by every JSON response the handlers build: the
`Content-Type` set explicitly plus the CORS origin header appended by the
overridden `end_headers`. -/
def jsonHeaders : List (String × String) :=
  [("Content-Type", "application/json"), ("Access-Control-Allow-Origin", "*")]

/-- `self.send_error(code, msg)`: an HTML error page; `end_headers` still adds
the CORS origin header. -/
def sendError (code : Nat) (msg : String) : Response :=
  { status := code
    headers := [("Access-Control-Allow-Origin", "*")]
    body := Body.errorPage code msg }

/-- The JSON field `k` of a response, when its body is a JSON object. -/
def Response.jsonField (r : Response) (k : String) : Option Json :=
  match r.body with
  | Body.json (Json.obj kvs) => Json.lookupKey kvs k
  | _ => none

/-- One parsed multipart form item, as produced by `cgi.FieldStorage`:
`filename` is `none` when the part declares no filename. -/
structure FormItem where
  filename : Option String
  content : Bytes
deriving DecidableEq, Repr

/-- `fs['file']` / `'file' in fs`: first form item with the given field name. -/
def lookupField : List (String × FormItem) → String → Option FormItem
  | [], _ => none
  | (k, v) :: rest, key => if k = key then some v else lookupField rest key

/-- The analyzer subprocess run (`subprocess.run([...], capture_output=True)`):
exit code, captured streams, and the subprocess's effect on the working
directory (it is expected to write `analysis_results.json`). -/
structure AnalyzerRun where
  returncode : Int
  stdout : String
  stderr : String
  effect : FS → FS

/-- Fault injection for the fallible filesystem steps of the upload path:
`mkdirError = some e` means `history_dir.mkdir(exist_ok=True)` raises an
exception whose `str` is `e`; `openResultFails` means opening/reading
`analysis_results.json` for the summary raises; `copyFails` means the
copy of `analysis_results.json` into the history file raises. -/
structure Faults where
  mkdirError : Option String
  openResultFails : Bool
  copyFails : Bool
deriving DecidableEq, Repr

/-- No injected faults. -/
def Faults.none' : Faults := ⟨none, false, false⟩

/-- Character-list core of `str.startswith`. -/
def charsStart : List Char → List Char → Bool
  | _, [] => true
  | [], _ :: _ => false
  | c :: cs, d :: ds => (c == d) && charsStart cs ds

/-- Python `str.startswith(p)`. -/
def strStartsWith (s p : String) : Bool := charsStart s.data p.data

/-- Whether `s` ends with `p` (the shape matched by the glob pattern
`*.json` for `p = ".json"`). -/
def strEndsWith (s p : String) : Bool :=
  charsStart s.data.reverse p.data.reverse

/-- `file_item.filename or 'uploaded_file.xlsx'`: Python falsiness makes both
a missing and an empty declared filename fall back to the default. -/
def effectiveFilename : Option String → String
  | none => "uploaded_file.xlsx"
  | some s => if s = "" then "uploaded_file.xlsx" else s

/-- Split a character list on a separator character. -/
def splitChars (sep : Char) : List Char → List (List Char)
  | [] => [[]]
  | c :: cs =>
    let r := splitChars sep cs
    if c == sep then [] :: r
    else
      match r with
      | [] => [[c]]
      | h :: t => (c :: h) :: t

/-- Last `/`-separated component of a path string (`pathlib` `name`). -/
def lastComponent (s : String) : String :=
  String.mk ((splitChars '/' s.data).getLastD s.data)

/-- `pathlib.Path(name).stem` on a single component: drop the last suffix,
where a suffix starts at a `.` that is neither the first nor past the last
character. -/
def stemOfName (name : String) : String :=
  let cs := name.data
  let n := cs.length
  let dots := (List.range n).filter
    (fun i => (cs.getD i ' ' == '.') && decide (0 < i) && decide (i + 1 < n))
  match dots.getLast? with
  | some i => String.mk (cs.take i)
  | none => name

/-- `pathlib.Path(filename).stem`. -/
def pathStem (s : String) : String := stemOfName (lastComponent s)

/-- The path of the analyzer's output mailbox file, relative to the working
directory. -/
def resultPath : String := "analysis_results.json"

/-- `f"{base_name}_{timestamp}.json"` (line 128): the history snapshot's
filename for a given upload. -/
def historyFilenameOf (filename now : String) : String :=
  pathStem filename ++ "_" ++ now ++ ".json"

/-- Lines 112-121: the summary extracted from the analyzer's result file.
`rb` is the result file's contents (`none` when the file does not exist);
`openResultFails` injects an exception while opening/reading it. Every
exception in this block is swallowed, yielding the empty object; a document
whose top level is not an object raises `AttributeError` on `.get`, which the
same `except` swallows. -/
def summaryOf (parseJson : Bytes → Option Json) (openResultFails : Bool)
    (rb : Option Bytes) : Json :=
  match rb with
  | none => Json.obj []
  | some bytes =>
    if openResultFails then Json.obj []
    else
      match parseJson bytes with
      | some (Json.obj kvs) =>
        (Json.lookupKey kvs "data_summary").getD (Json.obj [])
      | _ => Json.obj []

/-- Lines 130-135: copy `analysis_results.json` byte-for-byte into the history
file when it exists; any exception (injected via `copyFails`) is swallowed,
leaving the filesystem unchanged. -/
def archiveResult (copyFails : Bool) (historyPath : String) (fs2 : FS) : FS :=
  match fs2 resultPath with
  | some rbytes => if copyFails then fs2 else fs2.write historyPath rbytes
  | none => fs2

/-- `handle_file_upload` (src/file_handler.py lines 66-159), as a function
from the request environment to the response and the final working
directory.

Parameters: `parseJson` models `json.load`; `contentType` is the
`Content-Type` header; `fields` the parsed multipart form; `analyzer` the
subprocess oracle; `faults` drives the fallible filesystem steps; `now` is
`datetime.now().strftime('%Y%m%d-%H%M%S')`; `fs` the working directory. -/
def handle_file_upload (parseJson : Bytes → Option Json)
    (contentType : Option String) (fields : List (String × FormItem))
    (analyzer : AnalyzerRun) (faults : Faults) (now : String) (fs : FS) :
    Response × FS :=
  match contentType with
  | none => (sendError 400 "Invalid content type", fs)
  | some ct =>
    if ¬ strStartsWith ct "multipart/form-data" then
      (sendError 400 "Invalid content type", fs)
    else
      match lookupField fields "file" with
      | none => (sendError 400 "Missing file field", fs)
      | some item =>
        let filename := effectiveFilename item.filename
        let data := item.content
        -- 保存到当前工作目录
        let fs1 := fs.write filename data
        -- subprocess.run([sys.executable, '处理数据.py', str(save_path)])
        let fs2 := analyzer.effect fs1
        if analyzer.returncode ≠ 0 then
          ({ status := 500, headers := jsonHeaders
             body := Body.json (Json.obj
               [("success", Json.bool false),
                ("message", Json.str "分析失败"),
                ("stderr", Json.str analyzer.stderr),
                ("stdout", Json.str analyzer.stdout)]) }, fs2)
        else
          -- 读取生成的结果摘要（可选）: any exception here is swallowed
          let summary : Json := summaryOf parseJson faults.openResultFails (fs2 resultPath)
          -- history_dir.mkdir(exist_ok=True) is NOT inside the inner try:
          -- an exception here escapes to the top-level handler
          match faults.mkdirError with
          | some emsg =>
            ({ status := 500, headers := jsonHeaders
               body := Body.json (Json.obj
                 [("success", Json.bool false),
                  ("message", Json.str ("上传或分析失败: " ++ emsg))]) }, fs2)
          | none =>
            let historyFilename := historyFilenameOf filename now
            -- try: copy analysis_results.json into the history file;
            -- except: pass
            let fs3 := archiveResult faults.copyFails ("history/" ++ historyFilename) fs2
            ({ status := 200, headers := jsonHeaders
               body := Body.json (Json.obj
                 [("success", Json.bool true),
                  ("message", Json.str "文件上传并分析完成"),
                  ("filename", Json.str filename),
                  ("size", Json.num data.length),
                  ("summary", summary),
                  ("history_file", Json.str ("/history/" ++ historyFilename)),
                  ("history_timestamp", Json.str now)]) }, fs3)

/-! ### History listing (`do_GET` on `/history`, lines 40-62) -/

/-- A directory entry of `<workingDir>/history/` as the handler observes it:
name and last-modified time (`st_mtime`, seconds since the epoch). -/
structure DirEntry where
  name : String
  mtime : Nat
deriving DecidableEq, Repr

/-- Zero-padded two-digit decimal. -/
def pad2 (n : Nat) : String :=
  if n < 10 then "0" ++ toString n else toString n

/-- Four-digit zero-padded year (`%Y`); negative years keep their sign. -/
def pad4 (n : Int) : String :=
  if n < 0 then toString n
  else if n < 10 then "000" ++ toString n
  else if n < 100 then "00" ++ toString n
  else if n < 1000 then "0" ++ toString n
  else toString n

/-- Proleptic-Gregorian civil date from a day count (days since 1970-01-01);
Howard Hinnant's `civil_from_days` algorithm. -/
def civilFromDays (z₀ : Int) : Int × Nat × Nat :=
  let z := z₀ + 719468
  let era := z.fdiv 146097
  let doe := (z - era * 146097).toNat
  let yoe := (doe - doe / 1460 + doe / 36524 - doe / 146096) / 365
  let doy := doe - (365 * yoe + yoe / 4 - yoe / 100)
  let mp := (5 * doy + 2) / 153
  let d := doy - (153 * mp + 2) / 5 + 1
  let m := if mp < 10 then mp + 3 else mp - 9
  (if m ≤ 2 then (yoe : Int) + era * 400 + 1 else (yoe : Int) + era * 400, m, d)

/-- `datetime.fromtimestamp(epoch).strftime('%Y-%m-%d %H:%M:%S')`, with the
local timezone given as an offset from UTC in seconds. -/
def formatTimestamp (tz : Int) (epoch : Nat) : String :=
  let t : Int := (epoch : Int) + tz
  let days := t.fdiv 86400
  let sod := (t - days * 86400).toNat
  let c := civilFromDays days
  pad4 c.1 ++ "-" ++ pad2 c.2.1 ++ "-" ++ pad2 c.2.2 ++ " " ++
    pad2 (sod / 3600) ++ ":" ++ pad2 (sod % 3600 / 60) ++ ":" ++ pad2 (sod % 60)

/-- Descending-by-mtime order used by
`sorted(..., key=lambda p: p.stat().st_mtime, reverse=True)`. -/
def mtimeGE (a b : DirEntry) : Prop := b.mtime ≤ a.mtime

instance : DecidableRel mtimeGE := fun a b => Nat.decLe b.mtime a.mtime

instance : IsTotal DirEntry mtimeGE := ⟨fun a b => Nat.le_total b.mtime a.mtime⟩

instance : IsTrans DirEntry mtimeGE :=
  ⟨fun _ _ _ h h' => Nat.le_trans h' h⟩

/-- The listing item built for one history file. -/
def historyItem (tz : Int) (e : DirEntry) : Json :=
  Json.obj [("name", Json.str e.name),
            ("url", Json.str ("/history/" ++ e.name)),
            ("timestamp", Json.str (formatTimestamp tz e.mtime))]

/-- The `*.json` entries of the history directory, most recently modified
first (a stable sort, matching CPython's `sorted` with `reverse=True`). -/
def sortedJsonEntries (entries : List DirEntry) : List DirEntry :=
  List.insertionSort mtimeGE (entries.filter (fun e => strEndsWith e.name ".json"))

/-- `do_GET` on path `/history` (lines 41-62): `dir = none` models a missing
`history/` directory, `some entries` its contents (direct children only);
`enumError = some m` models an exception raised during enumeration, with `m`
the exception's `str`. -/
def do_GET_history (tz : Int) (dir : Option (List DirEntry))
    (enumError : Option String) : Response :=
  match enumError with
  | some m =>
    { status := 500, headers := jsonHeaders
      body := Body.json (Json.obj [("error", Json.str m)]) }
  | none =>
    match dir with
    | none =>
      { status := 200, headers := jsonHeaders, body := Body.json (Json.arr []) }
    | some entries =>
      { status := 200, headers := jsonHeaders
        body := Body.json (Json.arr ((sortedJsonEntries entries).map (historyItem tz))) }

/-! ### CORS preflight (`do_OPTIONS`, lines 27-32) -/

/-- `do_OPTIONS` (lines 27-32): 204, the two allow-headers declared there, and
the CORS origin header appended once by the overridden `end_headers`. -/
def do_OPTIONS : Response :=
  { status := 204
    headers := [("Access-Control-Allow-Methods", "POST, GET, OPTIONS"),
                ("Access-Control-Allow-Headers", "Content-Type"),
                ("Access-Control-Allow-Origin", "*")]
    body := Body.empty }

/-- Number of times a header name occurs in a response. -/
def Response.headerCount (r : Response) (name : String) : Nat :=
  (r.headers.filter (fun h => h.1 == name)).length

/-- Whether a body is a JSON document. -/
def Body.isJson : Body → Bool
  | Body.json _ => true
  | _ => false

/-- A failure envelope in the sense of the spec's error-handling section: a
JSON object carrying a `success`/`error` indicator and a human-readable
message. -/
def failureEnvelope (b : Body) : Prop :=
  ∃ kvs, b = Body.json (Json.obj kvs) ∧
    (Json.lookupKey kvs "success" = some (Json.bool false) ∨
      (∃ m, Json.lookupKey kvs "error" = some (Json.str m))) ∧
    ((∃ m, Json.lookupKey kvs "message" = some (Json.str m)) ∨
      (∃ m, Json.lookupKey kvs "error" = some (Json.str m)))

/-! ### Theorems -/

/-- C5: a POST /upload whose `Content-Type` header is absent or does not start
with `multipart/form-data` is answered 400 "Invalid content type" without the
multipart body being consulted (the result is the same for every `fields`
value) and with the working directory unchanged. -/
theorem invalid_content_type_rejected (parseJson : Bytes → Option Json)
    (contentType : Option String) (fields : List (String × FormItem))
    (analyzer : AnalyzerRun) (faults : Faults) (now : String) (fs : FS)
    (h : contentType = none ∨
      ∃ ct, contentType = some ct ∧
        strStartsWith ct "multipart/form-data" = false) :
    handle_file_upload parseJson contentType fields analyzer faults now fs =
      (sendError 400 "Invalid content type", fs) := by
  rcases h with h | ⟨ct, hct, hs⟩
  · subst h; rfl
  · subst hct; simp [handle_file_upload, hs]

theorem invalid_content_type_rejected_witness :
    handle_file_upload (fun _ => none) (some "text/plain") [] ⟨0, "", "", id⟩
        Faults.none' "20260101-000000" (fun _ => none) =
      (sendError 400 "Invalid content type", (fun _ => none : FS)) :=
  invalid_content_type_rejected _ _ _ _ _ _ _
    (Or.inr ⟨"text/plain", rfl, by decide⟩)

/-- C6: a POST /upload whose multipart body has no form field named `file` is
answered 400 "Missing file field" with the working directory unchanged. -/
theorem missing_file_field_rejected (parseJson : Bytes → Option Json)
    (ct : String) (fields : List (String × FormItem)) (analyzer : AnalyzerRun)
    (faults : Faults) (now : String) (fs : FS)
    (hct : strStartsWith ct "multipart/form-data" = true)
    (hf : lookupField fields "file" = none) :
    handle_file_upload parseJson (some ct) fields analyzer faults now fs =
      (sendError 400 "Missing file field", fs) := by
  simp [handle_file_upload, hct, hf]

theorem missing_file_field_rejected_witness :
    handle_file_upload (fun _ => none) (some "multipart/form-data; boundary=x")
        [("other", ⟨none, [1, 2]⟩)] ⟨0, "", "", id⟩ Faults.none'
        "20260101-000000" (fun _ => none) =
      (sendError 400 "Missing file field", (fun _ => none : FS)) :=
  missing_file_field_rejected _ _ _ _ _ _ _ (by decide) rfl

/-- C9: an OPTIONS request to any path is answered 204, and the headers
`Access-Control-Allow-Methods` (value `POST, GET, OPTIONS`),
`Access-Control-Allow-Headers` (value `Content-Type`) and the CORS origin
header each occur exactly once. -/
theorem options_preflight_headers :
    do_OPTIONS.status = 204 ∧
    do_OPTIONS.headerCount "Access-Control-Allow-Methods" = 1 ∧
    do_OPTIONS.headerCount "Access-Control-Allow-Headers" = 1 ∧
    do_OPTIONS.headerCount "Access-Control-Allow-Origin" = 1 ∧
    (do_OPTIONS.headers.filter
        (fun h => h.1 == "Access-Control-Allow-Methods")).map Prod.snd =
      ["POST, GET, OPTIONS"] ∧
    (do_OPTIONS.headers.filter
        (fun h => h.1 == "Access-Control-Allow-Headers")).map Prod.snd =
      ["Content-Type"] ∧
    do_OPTIONS.body = Body.empty := by
  refine ⟨rfl, by decide, by decide, by decide, by decide, by decide, rfl⟩

/-- C4: when the analyzer subprocess exits non-zero, the response is a 500
whose JSON body is exactly `{success:false, message:"分析失败" ("analysis
failed"), stderr, stdout}` with the captured streams verbatim, and the
uploaded file is still present in the final working directory (the handler
performs no rollback). -/
theorem analyzer_failure_response (parseJson : Bytes → Option Json)
    (ct : String) (fields : List (String × FormItem)) (item : FormItem)
    (analyzer : AnalyzerRun) (faults : Faults) (now : String) (fs : FS)
    (hct : strStartsWith ct "multipart/form-data" = true)
    (hf : lookupField fields "file" = some item)
    (hrc : analyzer.returncode ≠ 0)
    (hkeep : analyzer.effect
        (fs.write (effectiveFilename item.filename) item.content)
        (effectiveFilename item.filename) = some item.content) :
    (handle_file_upload parseJson (some ct) fields analyzer faults now
        fs).1.status = 500 ∧
    (handle_file_upload parseJson (some ct) fields analyzer faults now
        fs).1.body =
      Body.json (Json.obj
        [("success", Json.bool false),
         ("message", Json.str "分析失败"),
         ("stderr", Json.str analyzer.stderr),
         ("stdout", Json.str analyzer.stdout)]) ∧
    (handle_file_upload parseJson (some ct) fields analyzer faults now
        fs).2 (effectiveFilename item.filename) = some item.content := by
  simp [handle_file_upload, hct, hf, hrc, hkeep]

theorem analyzer_failure_response_witness :
    (handle_file_upload (fun _ => none) (some "multipart/form-data; boundary=x")
        [("file", ⟨some "t.xlsx", [7, 8]⟩)] ⟨2, "out text", "err text", id⟩
        Faults.none' "20260101-000000" (fun _ => none)).1.status = 500 ∧
    (handle_file_upload (fun _ => none) (some "multipart/form-data; boundary=x")
        [("file", ⟨some "t.xlsx", [7, 8]⟩)] ⟨2, "out text", "err text", id⟩
        Faults.none' "20260101-000000" (fun _ => none)).1.body =
      Body.json (Json.obj
        [("success", Json.bool false),
         ("message", Json.str "分析失败"),
         ("stderr", Json.str "err text"),
         ("stdout", Json.str "out text")]) ∧
    (handle_file_upload (fun _ => none) (some "multipart/form-data; boundary=x")
        [("file", ⟨some "t.xlsx", [7, 8]⟩)] ⟨2, "out text", "err text", id⟩
        Faults.none' "20260101-000000" (fun _ => none)).2 "t.xlsx" =
      some [7, 8] :=
  analyzer_failure_response (fun _ => none) "multipart/form-data; boundary=x"
    [("file", ⟨some "t.xlsx", [7, 8]⟩)] ⟨some "t.xlsx", [7, 8]⟩
    ⟨2, "out text", "err text", id⟩ Faults.none' "20260101-000000"
    (fun _ => none) (by decide) rfl (by decide) (by decide)

/-- Evaluation of the success branch of `handle_file_upload`: valid content
type, `file` field present, analyzer exits zero, `mkdir` does not raise. -/
theorem handle_file_upload_ok_eq (parseJson : Bytes → Option Json) (ct : String)
    (fields : List (String × FormItem)) (item : FormItem)
    (analyzer : AnalyzerRun) (faults : Faults) (now : String) (fs : FS)
    (hct : strStartsWith ct "multipart/form-data" = true)
    (hf : lookupField fields "file" = some item)
    (hrc : analyzer.returncode = 0)
    (hmk : faults.mkdirError = none) :
    handle_file_upload parseJson (some ct) fields analyzer faults now fs =
      ({ status := 200, headers := jsonHeaders
         body := Body.json (Json.obj
           [("success", Json.bool true),
            ("message", Json.str "文件上传并分析完成"),
            ("filename", Json.str (effectiveFilename item.filename)),
            ("size", Json.num item.content.length),
            ("summary", summaryOf parseJson faults.openResultFails
              (analyzer.effect
                (fs.write (effectiveFilename item.filename) item.content)
                resultPath)),
            ("history_file", Json.str
              ("/history/" ++
                historyFilenameOf (effectiveFilename item.filename) now)),
            ("history_timestamp", Json.str now)]) },
       archiveResult faults.copyFails
         ("history/" ++ historyFilenameOf (effectiveFilename item.filename) now)
         (analyzer.effect
           (fs.write (effectiveFilename item.filename) item.content))) := by
  simp [handle_file_upload, hct, hf, hrc, hmk]

/-- The history copy step touches no path other than its target. -/
theorem archiveResult_apply_ne (c : Bool) (hp q : String) (fs2 : FS)
    (h : q ≠ hp) : archiveResult c hp fs2 q = fs2 q := by
  unfold archiveResult
  cases fs2 resultPath with
  | none => rfl
  | some rbytes =>
    cases c with
    | true => rfl
    | false => simpa using FS.write_ne fs2 hp q rbytes h

/-- C1: for a valid multipart upload with field `file`, a non-empty declared
filename `F` and payload `B`, when the analyzer exits zero and the history
directory step does not raise, the final working directory maps `F` to
exactly `B`, and the 200 JSON envelope's `filename` is `F` and `size` is the
length of `B`. (The analyzer subprocess is assumed to leave the saved file in
place, and the history snapshot path must differ from `F`.) -/
theorem upload_success_persists_file (parseJson : Bytes → Option Json)
    (ct F : String) (B : Bytes) (fields : List (String × FormItem))
    (analyzer : AnalyzerRun) (faults : Faults) (now : String) (fs : FS)
    (hct : strStartsWith ct "multipart/form-data" = true)
    (hf : lookupField fields "file" = some ⟨some F, B⟩)
    (hF : F ≠ "")
    (hrc : analyzer.returncode = 0)
    (hmk : faults.mkdirError = none)
    (hkeep : analyzer.effect (fs.write F B) F = some B)
    (hpath : F ≠ "history/" ++ historyFilenameOf F now) :
    (handle_file_upload parseJson (some ct) fields analyzer faults now fs).2 F =
      some B ∧
    (handle_file_upload parseJson (some ct) fields analyzer faults now
        fs).1.status = 200 ∧
    (handle_file_upload parseJson (some ct) fields analyzer faults now
        fs).1.jsonField "filename" = some (Json.str F) ∧
    (handle_file_upload parseJson (some ct) fields analyzer faults now
        fs).1.jsonField "size" = some (Json.num B.length) := by
  have heff : effectiveFilename (some F) = F := by
    simp [effectiveFilename, hF]
  have he := handle_file_upload_ok_eq parseJson ct fields ⟨some F, B⟩ analyzer
    faults now fs hct hf hrc hmk
  simp only [heff] at he
  refine ⟨?_, ?_, ?_, ?_⟩
  · rw [he]
    exact (archiveResult_apply_ne faults.copyFails
      ("history/" ++ historyFilenameOf F now) F
      (analyzer.effect (fs.write F B)) hpath).trans hkeep
  · rw [he]
  · rw [he]; rfl
  · rw [he]; rfl

theorem upload_success_persists_file_witness :
    (handle_file_upload (fun _ => none)
        (some "multipart/form-data; boundary=x")
        [("file", ⟨some "data.xlsx", [1, 2, 3]⟩)] ⟨0, "", "", id⟩
        Faults.none' "20260101-000000" (fun _ => none)).2 "data.xlsx" =
      some [1, 2, 3] ∧
    (handle_file_upload (fun _ => none)
        (some "multipart/form-data; boundary=x")
        [("file", ⟨some "data.xlsx", [1, 2, 3]⟩)] ⟨0, "", "", id⟩
        Faults.none' "20260101-000000" (fun _ => none)).1.status = 200 ∧
    (handle_file_upload (fun _ => none)
        (some "multipart/form-data; boundary=x")
        [("file", ⟨some "data.xlsx", [1, 2, 3]⟩)] ⟨0, "", "", id⟩
        Faults.none' "20260101-000000" (fun _ => none)).1.jsonField
      "filename" = some (Json.str "data.xlsx") ∧
    (handle_file_upload (fun _ => none)
        (some "multipart/form-data; boundary=x")
        [("file", ⟨some "data.xlsx", [1, 2, 3]⟩)] ⟨0, "", "", id⟩
        Faults.none' "20260101-000000" (fun _ => none)).1.jsonField
      "size" = some (Json.num 3) :=
  upload_success_persists_file (fun _ => none)
    "multipart/form-data; boundary=x" "data.xlsx" [1, 2, 3]
    [("file", ⟨some "data.xlsx", [1, 2, 3]⟩)] ⟨0, "", "", id⟩
    Faults.none' "20260101-000000" (fun _ => none)
    (by decide) rfl (by decide) rfl rfl (by decide) (by decide)

/-- When the copy raises, the filesystem is left unchanged. -/
theorem archiveResult_copyFails (hp : String) (fs2 : FS) :
    archiveResult true hp fs2 = fs2 := by
  unfold archiveResult
  cases fs2 resultPath <;> rfl

/-- When the result file does not exist, no history snapshot is written. -/
theorem archiveResult_noResult (c : Bool) (hp : String) (fs2 : FS)
    (h : fs2 resultPath = none) : archiveResult c hp fs2 = fs2 := by
  unfold archiveResult
  rw [h]

/-- C2 counterexample: an exception in `history_dir.mkdir(exist_ok=True)`
(line 125) is NOT swallowed — it escapes to the top-level `except`, and the
otherwise-valid upload is answered 500 with `success:false` instead of a
degraded success response. -/
theorem mkdir_failure_returns_500_cex :
    (handle_file_upload (fun _ => none)
        (some "multipart/form-data; boundary=x")
        [("file", ⟨some "t.xlsx", [1]⟩)] ⟨0, "", "", id⟩
        ⟨some "Permission denied", false, false⟩ "20260101-000000"
        (fun _ => none)).1.status = 500 ∧
    (handle_file_upload (fun _ => none)
        (some "multipart/form-data; boundary=x")
        [("file", ⟨some "t.xlsx", [1]⟩)] ⟨0, "", "", id⟩
        ⟨some "Permission denied", false, false⟩ "20260101-000000"
        (fun _ => none)).1.jsonField "success" = some (Json.bool false) ∧
    (handle_file_upload (fun _ => none)
        (some "multipart/form-data; boundary=x")
        [("file", ⟨some "t.xlsx", [1]⟩)] ⟨0, "", "", id⟩
        ⟨some "Permission denied", false, false⟩ "20260101-000000"
        (fun _ => none)).1.jsonField "message" =
      some (Json.str "上传或分析失败: Permission denied") :=
  ⟨rfl, rfl, rfl⟩

/-- C2 (amended): failures in reading `analysis_results.json` and in copying
it into the history file are caught and swallowed — for every combination of
those two faults the upload is still answered 200 with `success:true`
(degraded: possibly-empty summary, and no history entry when the copy
fails). A failure while creating the history directory is caught only by the
top-level handler and yields a 500, not a success response. -/
theorem secondary_read_copy_failures_swallowed (parseJson : Bytes → Option Json)
    (ct : String) (fields : List (String × FormItem)) (item : FormItem)
    (analyzer : AnalyzerRun) (orf cf : Bool) (now : String) (fs : FS)
    (hct : strStartsWith ct "multipart/form-data" = true)
    (hf : lookupField fields "file" = some item)
    (hrc : analyzer.returncode = 0) :
    (handle_file_upload parseJson (some ct) fields analyzer ⟨none, orf, cf⟩
        now fs).1.status = 200 ∧
    (handle_file_upload parseJson (some ct) fields analyzer ⟨none, orf, cf⟩
        now fs).1.jsonField "success" = some (Json.bool true) ∧
    (cf = true →
      (handle_file_upload parseJson (some ct) fields analyzer ⟨none, orf, cf⟩
          now fs).2 =
        analyzer.effect
          (fs.write (effectiveFilename item.filename) item.content)) := by
  have he := handle_file_upload_ok_eq parseJson ct fields item analyzer
    ⟨none, orf, cf⟩ now fs hct hf hrc rfl
  refine ⟨by rw [he], by rw [he]; rfl, fun hcf => ?_⟩
  rw [he]
  subst hcf
  exact archiveResult_copyFails _ _

theorem secondary_read_copy_failures_swallowed_witness :
    (handle_file_upload (fun _ => none)
        (some "multipart/form-data; boundary=x")
        [("file", ⟨some "t.xlsx", [1]⟩)] ⟨0, "", "", id⟩
        ⟨none, true, true⟩ "20260101-000000" (fun _ => none)).1.status =
      200 ∧
    (handle_file_upload (fun _ => none)
        (some "multipart/form-data; boundary=x")
        [("file", ⟨some "t.xlsx", [1]⟩)] ⟨0, "", "", id⟩
        ⟨none, true, true⟩ "20260101-000000" (fun _ => none)).1.jsonField
      "success" = some (Json.bool true) ∧
    (true = true →
      (handle_file_upload (fun _ => none)
          (some "multipart/form-data; boundary=x")
          [("file", ⟨some "t.xlsx", [1]⟩)] ⟨0, "", "", id⟩
          ⟨none, true, true⟩ "20260101-000000" (fun _ => none)).2 =
        (⟨0, "", "", id⟩ : AnalyzerRun).effect
          (FS.write (fun _ => none) (effectiveFilename (some "t.xlsx")) [1])) :=
  secondary_read_copy_failures_swallowed (fun _ => none)
    "multipart/form-data; boundary=x"
    [("file", ⟨some "t.xlsx", [1]⟩)] ⟨some "t.xlsx", [1]⟩
    ⟨0, "", "", id⟩ true true "20260101-000000" (fun _ => none)
    (by decide) rfl rfl

/-- C10: when the analyzer exits zero and the history-directory step does not
raise, the 200 envelope always carries `history_file =
"/history/<base>_<timestamp>.json"` and `history_timestamp`, even when
`analysis_results.json` does not exist — in which case the handler writes
nothing after the analyzer runs, so the advertised history file need not
exist. -/
theorem history_link_unconditional (parseJson : Bytes → Option Json)
    (ct : String) (fields : List (String × FormItem)) (item : FormItem)
    (analyzer : AnalyzerRun) (faults : Faults) (now : String) (fs : FS)
    (hct : strStartsWith ct "multipart/form-data" = true)
    (hf : lookupField fields "file" = some item)
    (hrc : analyzer.returncode = 0)
    (hmk : faults.mkdirError = none)
    (hres : analyzer.effect
        (fs.write (effectiveFilename item.filename) item.content)
        resultPath = none) :
    (handle_file_upload parseJson (some ct) fields analyzer faults now
        fs).1.status = 200 ∧
    (handle_file_upload parseJson (some ct) fields analyzer faults now
        fs).1.jsonField "history_file" =
      some (Json.str
        ("/history/" ++
          historyFilenameOf (effectiveFilename item.filename) now)) ∧
    (handle_file_upload parseJson (some ct) fields analyzer faults now
        fs).1.jsonField "history_timestamp" = some (Json.str now) ∧
    (handle_file_upload parseJson (some ct) fields analyzer faults now
        fs).2 =
      analyzer.effect
        (fs.write (effectiveFilename item.filename) item.content) := by
  have he := handle_file_upload_ok_eq parseJson ct fields item analyzer
    faults now fs hct hf hrc hmk
  refine ⟨by rw [he], by rw [he]; rfl, by rw [he]; rfl, ?_⟩
  rw [he]
  exact archiveResult_noResult _ _ _ hres

theorem history_link_unconditional_witness :
    (handle_file_upload (fun _ => none)
        (some "multipart/form-data; boundary=x")
        [("file", ⟨some "data.xlsx", [1]⟩)] ⟨0, "", "", id⟩
        Faults.none' "20260101-000000" (fun _ => none)).1.status = 200 ∧
    (handle_file_upload (fun _ => none)
        (some "multipart/form-data; boundary=x")
        [("file", ⟨some "data.xlsx", [1]⟩)] ⟨0, "", "", id⟩
        Faults.none' "20260101-000000" (fun _ => none)).1.jsonField
      "history_file" =
      some (Json.str "/history/data_20260101-000000.json") ∧
    (handle_file_upload (fun _ => none)
        (some "multipart/form-data; boundary=x")
        [("file", ⟨some "data.xlsx", [1]⟩)] ⟨0, "", "", id⟩
        Faults.none' "20260101-000000" (fun _ => none)).1.jsonField
      "history_timestamp" = some (Json.str "20260101-000000") ∧
    (handle_file_upload (fun _ => none)
        (some "multipart/form-data; boundary=x")
        [("file", ⟨some "data.xlsx", [1]⟩)] ⟨0, "", "", id⟩
        Faults.none' "20260101-000000" (fun _ => none)).2
      "history/data_20260101-000000.json" = none := by
  have h := history_link_unconditional (fun _ => none)
    "multipart/form-data; boundary=x"
    [("file", ⟨some "data.xlsx", [1]⟩)] ⟨some "data.xlsx", [1]⟩
    ⟨0, "", "", id⟩ Faults.none' "20260101-000000" (fun _ => none)
    (by decide) rfl rfl rfl rfl
  refine ⟨h.1, ?_, h.2.2.1, ?_⟩
  · exact h.2.1.trans (congrArg (fun s => some (Json.str s)) (by decide))
  · exact (congrFun h.2.2.2 "history/data_20260101-000000.json").trans
      (by decide)

/-- C7: with the analyzer exiting zero, the envelope's `summary` is exactly
the summary extracted from `analysis_results.json`; that extraction yields
the document's `data_summary` field when the file exists and parses as a JSON
object containing it, and the empty object when the file is absent, fails to
read or parse, or lacks the field — the read failure is never surfaced
(`mkdir` succeeding, so that the request completes normally). -/
theorem summary_field_contract (parseJson : Bytes → Option Json) (ct : String)
    (fields : List (String × FormItem)) (item : FormItem)
    (analyzer : AnalyzerRun) (faults : Faults) (now : String) (fs : FS)
    (rb : Option Bytes)
    (hct : strStartsWith ct "multipart/form-data" = true)
    (hf : lookupField fields "file" = some item)
    (hrc : analyzer.returncode = 0)
    (hmk : faults.mkdirError = none)
    (hres : analyzer.effect
        (fs.write (effectiveFilename item.filename) item.content)
        resultPath = rb) :
    (handle_file_upload parseJson (some ct) fields analyzer faults now
        fs).1.jsonField "summary" =
      some (summaryOf parseJson faults.openResultFails rb) ∧
    (rb = none → summaryOf parseJson faults.openResultFails rb = Json.obj []) ∧
    (∀ bytes kvs s, rb = some bytes → faults.openResultFails = false →
      parseJson bytes = some (Json.obj kvs) →
      Json.lookupKey kvs "data_summary" = some s →
      summaryOf parseJson faults.openResultFails rb = s) ∧
    (∀ bytes kvs, rb = some bytes → faults.openResultFails = false →
      parseJson bytes = some (Json.obj kvs) →
      Json.lookupKey kvs "data_summary" = none →
      summaryOf parseJson faults.openResultFails rb = Json.obj []) ∧
    (∀ bytes, rb = some bytes → faults.openResultFails = false →
      parseJson bytes = none →
      summaryOf parseJson faults.openResultFails rb = Json.obj []) ∧
    (∀ bytes, rb = some bytes → faults.openResultFails = true →
      summaryOf parseJson faults.openResultFails rb = Json.obj []) := by
  have he := handle_file_upload_ok_eq parseJson ct fields item analyzer
    faults now fs hct hf hrc hmk
  rw [hres] at he
  refine ⟨by rw [he]; rfl, ?_, ?_, ?_, ?_, ?_⟩
  · rintro rfl; rfl
  · rintro bytes kvs s rfl horf hp hk
    simp [summaryOf, horf, hp, hk]
  · rintro bytes kvs rfl horf hp hk
    simp [summaryOf, horf, hp, hk]
  · rintro bytes rfl horf hp
    simp [summaryOf, horf, hp]
  · rintro bytes rfl horf
    simp [summaryOf, horf]

theorem summary_field_contract_witness :
    (handle_file_upload
        (fun _ => some (Json.obj
          [("data_summary", Json.obj [("rows", Json.num 5)])]))
        (some "multipart/form-data; boundary=x")
        [("file", ⟨some "data.xlsx", [1]⟩)]
        ⟨0, "", "",
          fun fsx => FS.write fsx "analysis_results.json" [99]⟩
        Faults.none' "20260101-000000" (fun _ => none)).1.jsonField
      "summary" = some (Json.obj [("rows", Json.num 5)]) := by
  have h := summary_field_contract
    (fun _ => some (Json.obj
      [("data_summary", Json.obj [("rows", Json.num 5)])]))
    "multipart/form-data; boundary=x"
    [("file", ⟨some "data.xlsx", [1]⟩)] ⟨some "data.xlsx", [1]⟩
    ⟨0, "", "", fun fsx => FS.write fsx "analysis_results.json" [99]⟩
    Faults.none' "20260101-000000" (fun _ => none) (some [99])
    (by decide) rfl rfl rfl (by decide)
  exact h.1.trans (congrArg some
    (h.2.2.1 [99] [("data_summary", Json.obj [("rows", Json.num 5)])]
      (Json.obj [("rows", Json.num 5)]) rfl rfl rfl rfl))

/-- Shape of every possible upload response: status 200, 400 or 500; 400s are
`send_error` HTML pages; 500s are JSON failure envelopes. -/
theorem upload_response_shape (parseJson : Bytes → Option Json)
    (contentType : Option String) (fields : List (String × FormItem))
    (analyzer : AnalyzerRun) (faults : Faults) (now : String) (fs : FS) :
    ((handle_file_upload parseJson contentType fields analyzer faults now
        fs).1.status = 200 ∨
     (handle_file_upload parseJson contentType fields analyzer faults now
        fs).1.status = 400 ∨
     (handle_file_upload parseJson contentType fields analyzer faults now
        fs).1.status = 500) ∧
    ((handle_file_upload parseJson contentType fields analyzer faults now
        fs).1.status = 400 →
      ∃ m, (handle_file_upload parseJson contentType fields analyzer faults
        now fs).1.body = Body.errorPage 400 m) ∧
    ((handle_file_upload parseJson contentType fields analyzer faults now
        fs).1.status = 500 →
      failureEnvelope (handle_file_upload parseJson contentType fields
        analyzer faults now fs).1.body) := by
  unfold handle_file_upload
  split
  · exact ⟨Or.inr (Or.inl rfl), fun _ => ⟨"Invalid content type", rfl⟩,
      fun h => by simp [sendError] at h⟩
  · split
    · exact ⟨Or.inr (Or.inl rfl), fun _ => ⟨"Invalid content type", rfl⟩,
        fun h => by simp [sendError] at h⟩
    · split
      · exact ⟨Or.inr (Or.inl rfl), fun _ => ⟨"Missing file field", rfl⟩,
          fun h => by simp [sendError] at h⟩
      · split
        · exact ⟨Or.inr (Or.inr rfl), fun h => by simp [sendError] at h,
            fun _ => ⟨_, rfl, Or.inl rfl, Or.inl ⟨"分析失败", rfl⟩⟩⟩
        · split
          · exact ⟨Or.inr (Or.inr rfl), fun h => by simp [sendError] at h,
              fun _ => ⟨_, rfl, Or.inl rfl, Or.inl ⟨_, rfl⟩⟩⟩
          · exact ⟨Or.inl rfl, fun h => by simp [sendError] at h,
              fun h => by simp [sendError] at h⟩

/-- Shape of every possible history-listing response: 200, or a 500 whose
body is a JSON failure envelope. -/
theorem history_response_shape (tz : Int) (dir : Option (List DirEntry))
    (enumError : Option String) :
    ((do_GET_history tz dir enumError).status = 200 ∨
     (do_GET_history tz dir enumError).status = 500) ∧
    ((do_GET_history tz dir enumError).status = 500 →
      failureEnvelope (do_GET_history tz dir enumError).body) := by
  unfold do_GET_history
  rcases enumError with _ | m
  · rcases dir with _ | entries
    · exact ⟨Or.inl rfl, fun h => by simp [sendError] at h⟩
    · exact ⟨Or.inl rfl, fun h => by simp [sendError] at h⟩
  · exact ⟨Or.inr rfl, fun _ =>
      ⟨[("error", Json.str m)], rfl, Or.inr ⟨m, rfl⟩, Or.inr ⟨m, rfl⟩⟩⟩

/-- C3 counterexample: on the upload endpoint, the request-level 400 "Invalid
content type" rejection is emitted by `send_error`, whose body is the
standard library's HTML error page — not a JSON body with a
`success`/`error` indicator. -/
theorem error_body_not_json_cex :
    (handle_file_upload (fun _ => none) (some "text/plain") []
        ⟨0, "", "", id⟩ Faults.none' "20260101-000000"
        (fun _ => none)).1.body = Body.errorPage 400 "Invalid content type" ∧
    (handle_file_upload (fun _ => none) (some "text/plain") []
        ⟨0, "", "", id⟩ Faults.none' "20260101-000000"
        (fun _ => none)).1.body.isJson = false :=
  ⟨rfl, rfl⟩

/-- C3 (amended): every request on the upload path yields a response with
status 200, 400 or 500 (the handler never escapes, so the server process
never exits on a request-level error); 500 failures on the upload and history
endpoints carry a JSON body with a `success`/`error` indicator and a
human-readable message, while the 400 malformed-request rejections are
emitted by `send_error` as an HTML error page carrying the message. -/
theorem failure_responses_shape (parseJson : Bytes → Option Json)
    (contentType : Option String) (fields : List (String × FormItem))
    (analyzer : AnalyzerRun) (faults : Faults) (now : String) (fs : FS)
    (tz : Int) (dir : Option (List DirEntry)) (enumError : Option String) :
    ((handle_file_upload parseJson contentType fields analyzer faults now
        fs).1.status = 200 ∨
     (handle_file_upload parseJson contentType fields analyzer faults now
        fs).1.status = 400 ∨
     (handle_file_upload parseJson contentType fields analyzer faults now
        fs).1.status = 500) ∧
    ((handle_file_upload parseJson contentType fields analyzer faults now
        fs).1.status = 400 →
      ∃ m, (handle_file_upload parseJson contentType fields analyzer faults
        now fs).1.body = Body.errorPage 400 m) ∧
    ((handle_file_upload parseJson contentType fields analyzer faults now
        fs).1.status = 500 →
      failureEnvelope (handle_file_upload parseJson contentType fields
        analyzer faults now fs).1.body) ∧
    ((do_GET_history tz dir enumError).status = 200 ∨
     (do_GET_history tz dir enumError).status = 500) ∧
    ((do_GET_history tz dir enumError).status = 500 →
      failureEnvelope (do_GET_history tz dir enumError).body) := by
  have hu := upload_response_shape parseJson contentType fields analyzer
    faults now fs
  have hh := history_response_shape tz dir enumError
  exact ⟨hu.1, hu.2.1, hu.2.2, hh.1, hh.2⟩

theorem failure_responses_shape_witness :
    (handle_file_upload (fun _ => none) (some "text/plain") []
        ⟨0, "", "", id⟩ Faults.none' "20260101-000000"
        (fun _ => none)).1.status = 400 ∧
    failureEnvelope (do_GET_history 0 none (some "boom")).body := by
  have h := failure_responses_shape (fun _ => none) (some "text/plain") []
    ⟨0, "", "", id⟩ Faults.none' "20260101-000000" (fun _ => none)
    0 none (some "boom")
  exact ⟨rfl, h.2.2.2.2 rfl⟩

/-- C8: the history listing answers a missing directory with an empty JSON
array, otherwise emits for each `*.json` file directly in the directory an
item `{name, url:"/history/<name>", timestamp}` with the timestamp formatted
`YYYY-MM-DD HH:MM:SS` from the file's last-modified time, in descending
modification-time order (a permutation of exactly the `*.json` entries), and
answers any enumeration failure with a 500 `{error: <message>}`. -/
theorem history_listing_contract (tz : Int) (dir : Option (List DirEntry))
    (enumError : Option String) :
    (enumError = none → dir = none →
      do_GET_history tz dir enumError =
        { status := 200, headers := jsonHeaders
          body := Body.json (Json.arr []) }) ∧
    (∀ entries, enumError = none → dir = some entries →
      (do_GET_history tz dir enumError).status = 200 ∧
      ∃ l : List DirEntry,
        (do_GET_history tz dir enumError).body =
          Body.json (Json.arr (l.map (fun e => Json.obj
            [("name", Json.str e.name),
             ("url", Json.str ("/history/" ++ e.name)),
             ("timestamp", Json.str (formatTimestamp tz e.mtime))]))) ∧
        l.Perm (entries.filter (fun e => strEndsWith e.name ".json")) ∧
        l.Sorted mtimeGE) ∧
    (∀ m, enumError = some m →
      do_GET_history tz dir enumError =
        { status := 500, headers := jsonHeaders
          body := Body.json (Json.obj [("error", Json.str m)]) }) := by
  refine ⟨?_, ?_, ?_⟩
  · rintro rfl rfl; rfl
  · rintro entries rfl rfl
    refine ⟨rfl, sortedJsonEntries entries, rfl, ?_, ?_⟩
    · exact List.perm_insertionSort mtimeGE _
    · exact List.sorted_insertionSort mtimeGE _
  · rintro m rfl; rfl

theorem history_listing_contract_witness :
    (do_GET_history 0 (some [⟨"a.json", 5⟩, ⟨"b.txt", 9⟩, ⟨"c.json", 9⟩])
        none).status = 200 ∧
    do_GET_history 0 none (some "boom") =
      { status := 500, headers := jsonHeaders
        body := Body.json (Json.obj [("error", Json.str "boom")]) } := by
  have h := history_listing_contract 0
    (some [⟨"a.json", 5⟩, ⟨"b.txt", 9⟩, ⟨"c.json", 9⟩]) none
  have h' := history_listing_contract 0 none (some "boom")
  exact ⟨(h.2.1 [⟨"a.json", 5⟩, ⟨"b.txt", 9⟩, ⟨"c.json", 9⟩] rfl rfl).1,
    h'.2.2 "boom" rfl⟩

end FileUploadServer
